import Mathlib

/-!
Verification of the pricing-calculator core of the Grow-Cursor backend
(`calculateStartPrice`, `getApplicableProfit`, `validatePricingConfig`,
`validateProfitTiers` from the pricing-calculator utility module).

The JavaScript number domain is embedded as `JVal`: the special values
`undefined`, `null`, `NaN`, `Infinity`, `-Infinity` are explicit
constructors and finite numbers are exact rationals (`ℚ`).  Finite
arithmetic is modelled exactly (the idealization of IEEE-754 doubles by
rationals); the special-value propagation rules (`ToNumber` coercion,
`NaN`/infinity arithmetic, relational and strict-equality operators,
truthiness) follow the ECMAScript semantics the source relies on.
Fallible functions (`throw new Error(...)` in the source) are embedded
as `Except PricingError _`, with one error constructor per thrown
message; `console.warn` output is collected in a returned warning list.
-/

namespace GrowPricing

/-- A JavaScript value as used by the pricing module: `undefined`, `null`,
and numbers (`NaN`, the two infinities, or a finite number modelled as an
exact rational). -/
inductive JVal where
  | undef : JVal
  | jnull : JVal
  | nan : JVal
  | posInf : JVal
  | negInf : JVal
  | fin : ℚ → JVal
  deriving DecidableEq, Repr

namespace JVal

/-- ECMAScript `ToNumber` restricted to the values that occur here:
`undefined` coerces to `NaN`, `null` coerces to `+0`. -/
def toNumber : JVal → JVal
  | .undef => .nan
  | .jnull => .fin 0
  | v => v

/-- ECMAScript truthiness: `undefined`, `null`, `NaN` and `0` are falsy;
infinities and nonzero finite numbers are truthy. -/
def truthy : JVal → Bool
  | .undef => false
  | .jnull => false
  | .nan => false
  | .posInf => true
  | .negInf => true
  | .fin q => decide (q ≠ 0)

/-- The global `isNaN` (coerces its argument with `ToNumber` first, so
`isNaN(undefined)` is true while `isNaN(null)` is false). -/
def jsIsNaN (v : JVal) : Bool :=
  match v.toNumber with
  | .nan => true
  | _ => false

/-- The global `isFinite` (after `ToNumber` coercion). -/
def jsIsFinite (v : JVal) : Bool :=
  match v.toNumber with
  | .fin _ => true
  | _ => false

/-- `v === null`. -/
def isNull : JVal → Bool
  | .jnull => true
  | _ => false

/-- `v === undefined`. -/
def isUndef : JVal → Bool
  | .undef => true
  | _ => false

/-- Strict equality `===` on the values that occur here (`NaN === NaN`
is false). -/
def strictEq : JVal → JVal → Bool
  | .undef, .undef => true
  | .jnull, .jnull => true
  | .posInf, .posInf => true
  | .negInf, .negInf => true
  | .fin p, .fin q => decide (p = q)
  | _, _ => false

/-- Addition on coerced numbers (IEEE special-value rules; finite
addition is exact). -/
def numAdd : JVal → JVal → JVal
  | .nan, _ => .nan
  | _, .nan => .nan
  | .posInf, .negInf => .nan
  | .negInf, .posInf => .nan
  | .posInf, _ => .posInf
  | _, .posInf => .posInf
  | .negInf, _ => .negInf
  | _, .negInf => .negInf
  | .fin p, .fin q => .fin (p + q)
  | _, _ => .nan

/-- Negation on coerced numbers. -/
def numNeg : JVal → JVal
  | .nan => .nan
  | .posInf => .negInf
  | .negInf => .posInf
  | .fin q => .fin (-q)
  | v => v

/-- Multiplication on coerced numbers (`Infinity * 0` is `NaN`; sign
rules for infinities; finite multiplication is exact). -/
def numMul : JVal → JVal → JVal
  | .nan, _ => .nan
  | _, .nan => .nan
  | .posInf, .posInf => .posInf
  | .posInf, .negInf => .negInf
  | .negInf, .posInf => .negInf
  | .negInf, .negInf => .posInf
  | .posInf, .fin q => if q = 0 then .nan else if 0 < q then .posInf else .negInf
  | .fin q, .posInf => if q = 0 then .nan else if 0 < q then .posInf else .negInf
  | .negInf, .fin q => if q = 0 then .nan else if 0 < q then .negInf else .posInf
  | .fin q, .negInf => if q = 0 then .nan else if 0 < q then .negInf else .posInf
  | .fin p, .fin q => .fin (p * q)
  | _, _ => .nan

/-- Division on coerced numbers (`x/0` gives a signed infinity for
nonzero finite `x`, `0/0` and `Infinity/Infinity` give `NaN`; finite
division is exact; zeros are unsigned, i.e. `+0`). -/
def numDiv : JVal → JVal → JVal
  | .nan, _ => .nan
  | _, .nan => .nan
  | .posInf, .posInf => .nan
  | .posInf, .negInf => .nan
  | .negInf, .posInf => .nan
  | .negInf, .negInf => .nan
  | .posInf, .fin q => if 0 ≤ q then .posInf else .negInf
  | .negInf, .fin q => if 0 ≤ q then .negInf else .posInf
  | .fin _, .posInf => .fin 0
  | .fin _, .negInf => .fin 0
  | .fin p, .fin q =>
      if q = 0 then (if p = 0 then .nan else if 0 < p then .posInf else .negInf)
      else .fin (p / q)
  | _, _ => .nan

/-- Strict less-than on coerced numbers (`NaN` compares false). -/
def numLt : JVal → JVal → Bool
  | .fin p, .fin q => decide (p < q)
  | .negInf, .fin _ => true
  | .negInf, .posInf => true
  | .fin _, .posInf => true
  | _, _ => false

/-- Less-or-equal on coerced numbers (`NaN` compares false). -/
def numLe : JVal → JVal → Bool
  | .fin p, .fin q => decide (p ≤ q)
  | .negInf, .negInf => true
  | .negInf, .fin _ => true
  | .negInf, .posInf => true
  | .fin _, .posInf => true
  | .posInf, .posInf => true
  | _, _ => false

/-- JavaScript `+` (numeric case). -/
def jadd (a b : JVal) : JVal := numAdd a.toNumber b.toNumber

/-- JavaScript binary `-`. -/
def jsub (a b : JVal) : JVal := numAdd a.toNumber (numNeg b.toNumber)

/-- JavaScript `*`. -/
def jmul (a b : JVal) : JVal := numMul a.toNumber b.toNumber

/-- JavaScript `/`. -/
def jdiv (a b : JVal) : JVal := numDiv a.toNumber b.toNumber

/-- JavaScript `<`. -/
def jltB (a b : JVal) : Bool := numLt a.toNumber b.toNumber

/-- JavaScript `<=`. -/
def jleB (a b : JVal) : Bool := numLe a.toNumber b.toNumber

/-- JavaScript `>`. -/
def jgtB (a b : JVal) : Bool := numLt b.toNumber a.toNumber

/-- JavaScript `>=`. -/
def jgeB (a b : JVal) : Bool := numLe b.toNumber a.toNumber

/-- `Math.round`: nearest integer, ties toward `+∞`; `NaN` and the
infinities are returned unchanged. -/
def jround : JVal → JVal
  | .fin q => .fin (⌊q + 1/2⌋ : ℤ)
  | .undef => .nan
  | .jnull => .fin 0
  | v => v

end JVal

open JVal

/-- A profit tier object `{ minCost, maxCost, profit }`.  Each field is a
`JVal` so that `null`, `undefined` and non-finite numbers are
representable, exactly as in the source. -/
structure Tier where
  minCost : JVal
  maxCost : JVal
  profit : JVal
  deriving DecidableEq, Repr

/-- The `profitTiers` sub-object `{ enabled, tiers }`; `tiers` is
`none` when the property is absent (`undefined`). -/
structure ProfitTiersCfg where
  enabled : Bool
  tiers : Option (List Tier)
  deriving DecidableEq, Repr

/-- A pricing configuration object.  An absent property reads as
`JVal.undef`; `profitTiers` is `none` when the sub-object is absent. -/
structure PricingConfig where
  spentRate : JVal
  payoutRate : JVal
  desiredProfit : JVal
  fixedFee : JVal
  saleTax : JVal
  ebayFee : JVal
  adsFee : JVal
  tdsFee : JVal
  shippingCost : JVal
  taxRate : JVal
  profitTiers : Option ProfitTiersCfg
  deriving DecidableEq, Repr

/-- One constructor per distinct `throw new Error(...)` site of the
source, with the tier indices that appear in the messages (1-based, in
sorted order).  The spec's error taxonomy groups them: `ConfigError`
covers `requiredField`/`percentOutOfRange`/`nonNegativeField`,
`TierError` covers the `tier*` constructors, `InputError` is
`invalidCost`, `FeeConfigError` is `feeConfig` and `ComputationError`
is `invalidResult`. -/
inductive PricingError where
  | requiredField (name : String)
  | percentOutOfRange (name : String)
  | nonNegativeField (name : String)
  | tierEmpty
  | tierMinCost (i : Nat)
  | tierProfit (i : Nat)
  | tierMaxCost (i : Nat)
  | tierOnlyLastNull (i : Nat)
  | tierOverlap (i j : Nat)
  | tierGap (i j : Nat)
  | invalidCost
  | feeConfig
  | invalidResult
  deriving DecidableEq, Repr

/-- Whether a `PricingError` is in the spec's `TierError` class. -/
def PricingError.isTierError : PricingError → Bool
  | .tierEmpty | .tierMinCost _ | .tierProfit _ | .tierMaxCost _
  | .tierOnlyLastNull _ | .tierOverlap _ _ | .tierGap _ _ => true
  | _ => false

/-- Destructuring default: `const { f = d } = cfg` uses `d` only when
the property is `undefined` (not when it is `null`). -/
def dflt (v : JVal) (d : JVal) : JVal :=
  match v with
  | .undef => d
  | _ => v

/-- `pricingConfig.profitTiers?.enabled` as a boolean (an absent
sub-object reads as `undefined`, which is falsy). -/
def tieredEnabled (cfg : PricingConfig) : Bool :=
  match cfg.profitTiers with
  | some pt => pt.enabled
  | none => false

/-- `pricingConfig.profitTiers?.tiers` (absent sub-object or absent
list read as `undefined` = `none`). -/
def tiersField (cfg : PricingConfig) : Option (List Tier) :=
  match cfg.profitTiers with
  | some pt => pt.tiers
  | none => none

/-- The tier list with `undefined` read as the empty list (used only
where the source has already ensured the list is present). -/
def tiersList (cfg : PricingConfig) : List Tier :=
  (tiersField cfg).getD []

/-! ### Tier sorting

`validateProfitTiers` sorts a copy with
`[...tiers].sort((a, b) => a.minCost - b.minCost)`.  `Array.prototype.sort`
is stable, so for the numeric comparator the result is the stable
ascending sort by `minCost`, modelled here as a stable insertion sort
(structural recursion so that concrete instances evaluate). -/

/-- `comparator(a, b) < 0`, i.e. `a.minCost - b.minCost < 0`. -/
def tierLtB (a b : Tier) : Bool := jltB (jsub a.minCost b.minCost) (.fin 0)

/-- Insert a tier into an already sorted list, after every strictly
smaller element (and hence before equal keys: stability). -/
def insertTier (t : Tier) : List Tier → List Tier
  | [] => [t]
  | u :: us => if tierLtB u t then u :: insertTier t us else t :: u :: us

/-- Stable sort by `minCost` ascending. -/
def sortTiers (ts : List Tier) : List Tier := ts.foldr insertTier []

/-! ### validateProfitTiers -/

/-- `tier.minCost === undefined || tier.minCost === null ||
isNaN(tier.minCost) || tier.minCost < 0`. -/
def minCostBad (t : Tier) : Bool :=
  isUndef t.minCost || isNull t.minCost || jsIsNaN t.minCost || jltB t.minCost (.fin 0)

/-- `tier.profit === undefined || tier.profit === null ||
isNaN(tier.profit) || tier.profit <= 0`. -/
def profitBad (t : Tier) : Bool :=
  isUndef t.profit || isNull t.profit || jsIsNaN t.profit || jleB t.profit (.fin 0)

/-- When `maxCost` is neither `null` nor `undefined`:
`isNaN(tier.maxCost) || tier.maxCost <= tier.minCost`. -/
def maxCostBad (t : Tier) : Bool :=
  !(isNull t.maxCost || isUndef t.maxCost) && (jsIsNaN t.maxCost || jleB t.maxCost t.minCost)

/-- The `console.warn` message emitted for a bounded last tier. -/
def lastTierWarn : String := "Last tier should have maxCost = null for unlimited range"

/-- The validation loop of `validateProfitTiers`, over the sorted list;
`i` is the 0-based loop index.  Warnings (from `console.warn`) are
collected in the success value. -/
def checkTiers : List Tier → Nat → Except PricingError (List String)
  | [], _ => .ok []
  | t :: rest, i =>
    if minCostBad t then .error (.tierMinCost (i + 1))
    else if profitBad t then .error (.tierProfit (i + 1))
    else if maxCostBad t then .error (.tierMaxCost (i + 1))
    else
      match rest with
      | [] =>
        if !(isNull t.maxCost || isUndef t.maxCost) then .ok [lastTierWarn] else .ok []
      | next :: _ =>
        if isNull t.maxCost || isUndef t.maxCost then .error (.tierOnlyLastNull (i + 1))
        else if jgtB t.maxCost next.minCost then .error (.tierOverlap (i + 1) (i + 2))
        else if !strictEq t.maxCost next.minCost then .error (.tierGap (i + 1) (i + 2))
        else checkTiers rest (i + 1)

/-- `validateProfitTiers(tiers)`: rejects a missing or empty list, then
runs the loop over a sorted copy.  Success (`return true` in the
source) carries the collected warnings. -/
def validateProfitTiers (tiers : Option (List Tier)) : Except PricingError (List String) :=
  match tiers with
  | none => .error .tierEmpty
  | some ts =>
    if ts.isEmpty then .error .tierEmpty
    else checkTiers (sortTiers ts) 0

/-! ### validatePricingConfig -/

/-- `!config[field] || isNaN(config[field]) || config[field] <= 0`. -/
def requiredFieldBad (v : JVal) : Bool :=
  !truthy v || jsIsNaN v || jleB v (.fin 0)

/-- The percentage-field check body: skipped for `undefined`/`null`,
otherwise `isNaN(value) || value < 0 || value > 100`. -/
def percentFieldBad (v : JVal) : Bool :=
  if isUndef v || isNull v then false
  else jsIsNaN v || jltB v (.fin 0) || jgtB v (.fin 100)

/-- The non-negative-field check body: skipped for `undefined`/`null`,
otherwise `isNaN(value) || value < 0`. -/
def nonNegFieldBad (v : JVal) : Bool :=
  if isUndef v || isNull v then false
  else jsIsNaN v || jltB v (.fin 0)

/-- First field (in order) failing a check, as in the source's `for`
loops over field-name arrays. -/
def firstBadField (bad : JVal → Bool) : List (String × JVal) → Option String
  | [] => none
  | (n, v) :: rest => if bad v then some n else firstBadField bad rest

/-- The first stage of `validatePricingConfig` (tiered-aware variant):
tier validation when `profitTiers?.enabled` is truthy, otherwise the
flat-profit required-field loop. -/
def validateStep1 (cfg : PricingConfig) : Except PricingError (List String) :=
  if tieredEnabled cfg then validateProfitTiers (tiersField cfg)
  else
    match firstBadField requiredFieldBad
        [("spentRate", cfg.spentRate), ("payoutRate", cfg.payoutRate),
         ("desiredProfit", cfg.desiredProfit)] with
    | some n => .error (.requiredField n)
    | none => .ok []

/-- `validatePricingConfig(config)` (tiered-aware variant): the first
stage, then the percentage fields, then the non-negative fields.
Success carries the warnings surfaced by `validateProfitTiers`. -/
def validatePricingConfig (cfg : PricingConfig) : Except PricingError (List String) :=
  match validateStep1 cfg with
  | .error e => .error e
  | .ok ws =>
    match firstBadField percentFieldBad
        [("saleTax", cfg.saleTax), ("ebayFee", cfg.ebayFee), ("adsFee", cfg.adsFee),
         ("tdsFee", cfg.tdsFee), ("taxRate", cfg.taxRate)] with
    | some n => .error (.percentOutOfRange n)
    | none =>
      match firstBadField nonNegFieldBad
          [("fixedFee", cfg.fixedFee), ("shippingCost", cfg.shippingCost)] with
      | some n => .error (.nonNegativeField n)
      | none => .ok ws

/-! ### getApplicableProfit and the calculation steps -/

/-- One tier's match test:
`amazonCost >= tier.minCost && (tier.maxCost === null || amazonCost < tier.maxCost)`. -/
def tierMatchesB (cost : JVal) (t : Tier) : Bool :=
  jgeB cost t.minCost && (isNull t.maxCost || jltB cost t.maxCost)

/-- The `for (const tier of tiers)` scan: profit of the first matching
tier, in the order supplied. -/
def findTierProfit (cost : JVal) : List Tier → Option JVal
  | [] => none
  | t :: ts => if tierMatchesB cost t then some t.profit else findTierProfit cost ts

/-- `getApplicableProfit(amazonCost, pricingConfig)`: the fixed
`desiredProfit` when tiered profit is disabled or unconfigured,
otherwise the first matching tier's profit, falling back to
`desiredProfit` when no tier matches. -/
def getApplicableProfit (cost : JVal) (cfg : PricingConfig) : JVal :=
  match cfg.profitTiers with
  | none => cfg.desiredProfit
  | some pt =>
    if !pt.enabled then cfg.desiredProfit
    else
      match pt.tiers with
      | none => cfg.desiredProfit
      | some ts =>
        if ts.isEmpty then cfg.desiredProfit
        else
          match findTierProfit cost ts with
          | some p => p
          | none => cfg.desiredProfit

/-- Destructured `saleTax = 0`. -/
def effSaleTax (cfg : PricingConfig) : JVal := dflt cfg.saleTax (.fin 0)

/-- Destructured `ebayFee = 12.9`. -/
def effEbayFee (cfg : PricingConfig) : JVal := dflt cfg.ebayFee (.fin (129/10))

/-- Destructured `adsFee = 3`. -/
def effAdsFee (cfg : PricingConfig) : JVal := dflt cfg.adsFee (.fin 3)

/-- Destructured `tdsFee = 1`. -/
def effTdsFee (cfg : PricingConfig) : JVal := dflt cfg.tdsFee (.fin 1)

/-- Destructured `shippingCost = 0`. -/
def effShipping (cfg : PricingConfig) : JVal := dflt cfg.shippingCost (.fin 0)

/-- Destructured `taxRate = 10`. -/
def effTaxRate (cfg : PricingConfig) : JVal := dflt cfg.taxRate (.fin 10)

/-- Destructured `fixedFee = 0`. -/
def effFixedFee (cfg : PricingConfig) : JVal := dflt cfg.fixedFee (.fin 0)

/-- Step 1: `taxUSD = amazonCost * (taxRate / 100)`. -/
def taxStep (cfg : PricingConfig) (cost : JVal) : JVal :=
  jmul cost (jdiv (effTaxRate cfg) (.fin 100))

/-- Step 2: `buyingPriceUSD = amazonCost + shippingCost + taxUSD`. -/
def buyingUSDStep (cfg : PricingConfig) (cost : JVal) : JVal :=
  jadd (jadd cost (effShipping cfg)) (taxStep cfg cost)

/-- Step 3: `buyingPriceINR = buyingPriceUSD * spentRate`. -/
def buyingINRStep (cfg : PricingConfig) (cost : JVal) : JVal :=
  jmul (buyingUSDStep cfg cost) cfg.spentRate

/-- Step 5: `profitComponent = applicableProfit + buyingPriceINR`. -/
def profitComponentStep (cfg : PricingConfig) (cost : JVal) : JVal :=
  jadd (getApplicableProfit cost cfg) (buyingINRStep cfg cost)

/-- Step 6: `payoutUSD = profitComponent / payoutRate`. -/
def payoutStep (cfg : PricingConfig) (cost : JVal) : JVal :=
  jdiv (profitComponentStep cfg cost) cfg.payoutRate

/-- Step 7: `withFixedFee = payoutUSD + (fixedFee / payoutRate)`. -/
def withFixedFeeStep (cfg : PricingConfig) (cost : JVal) : JVal :=
  jadd (payoutStep cfg cost) (jdiv (effFixedFee cfg) cfg.payoutRate)

/-- Step 8a: `combinedFees = ebayFee/100 + adsFee/100 + tdsFee/100`. -/
def combinedFeesStep (cfg : PricingConfig) : JVal :=
  jadd (jadd (jdiv (effEbayFee cfg) (.fin 100)) (jdiv (effAdsFee cfg) (.fin 100)))
    (jdiv (effTdsFee cfg) (.fin 100))

/-- Step 8b: `saleTaxMultiplier = 1 + saleTax/100`. -/
def saleTaxMultStep (cfg : PricingConfig) : JVal :=
  jadd (.fin 1) (jdiv (effSaleTax cfg) (.fin 100))

/-- Step 8c: `feeMultiplier = 1 - saleTaxMultiplier * combinedFees`. -/
def feeMultiplierStep (cfg : PricingConfig) : JVal :=
  jsub (.fin 1) (jmul (saleTaxMultStep cfg) (combinedFeesStep cfg))

/-- Step 9: `finalPrice = withFixedFee / feeMultiplier`. -/
def finalPriceStep (cfg : PricingConfig) (cost : JVal) : JVal :=
  jdiv (withFixedFeeStep cfg cost) (feeMultiplierStep cfg)

/-- `Math.round(v * 100) / 100`. -/
def round2 (v : JVal) : JVal := jdiv (jround (jmul v (.fin 100))) (.fin 100)

/-- `Math.round(v * 10000) / 10000`. -/
def round4 (v : JVal) : JVal := jdiv (jround (jmul v (.fin 10000))) (.fin 10000)

/-- The `profitTier` breakdown sub-object.  `getCostRangeForProfit`
formats the matched tier's `[minCost, maxCost)` as a display string;
the range is kept structurally here (`none` for the source's string
constant N/A). -/
structure TierInfo where
  enabled : Bool
  profit : JVal
  costRange : Option (JVal × JVal)
  deriving DecidableEq, Repr

/-- `getCostRangeForProfit(cost, tiers)`: the first matching tier's
cost range. -/
def getCostRangeForProfit (cost : JVal) : List Tier → Option (JVal × JVal)
  | [] => none
  | t :: ts =>
    if tierMatchesB cost t then some (t.minCost, t.maxCost)
    else getCostRangeForProfit cost ts

/-- The returned breakdown object (display values, each independently
rounded exactly as in the source). -/
structure Breakdown where
  cost : JVal
  shipping : JVal
  taxRate : JVal
  tax : JVal
  buyingPriceUSD : JVal
  buyingPriceINR : JVal
  applicableProfit : JVal
  profitTier : TierInfo
  desiredProfit : JVal
  profitComponent : JVal
  payoutUSD : JVal
  fixedFee : JVal
  withFixedFee : JVal
  feeMultiplier : JVal
  finalPrice : JVal
  deriving DecidableEq, Repr

/-- The `{ price, breakdown }` result object. -/
structure PriceResult where
  price : JVal
  breakdown : Breakdown
  deriving DecidableEq, Repr

/-- The result object built on the success path of
`calculateStartPrice`. -/
def mkResult (cfg : PricingConfig) (cost : JVal) : PriceResult :=
  { price := round2 (finalPriceStep cfg cost)
    breakdown :=
      { cost := cost
        shipping := effShipping cfg
        taxRate := effTaxRate cfg
        tax := round2 (taxStep cfg cost)
        buyingPriceUSD := round2 (buyingUSDStep cfg cost)
        buyingPriceINR := round2 (buyingINRStep cfg cost)
        applicableProfit := getApplicableProfit cost cfg
        profitTier :=
          if tieredEnabled cfg then
            { enabled := true
              profit := getApplicableProfit cost cfg
              costRange := getCostRangeForProfit cost (tiersList cfg) }
          else
            { enabled := false, profit := cfg.desiredProfit, costRange := none }
        desiredProfit := getApplicableProfit cost cfg
        profitComponent := round2 (profitComponentStep cfg cost)
        payoutUSD := round2 (payoutStep cfg cost)
        fixedFee := effFixedFee cfg
        withFixedFee := round2 (withFixedFeeStep cfg cost)
        feeMultiplier := round4 (feeMultiplierStep cfg)
        finalPrice := round2 (finalPriceStep cfg cost) } }

/-- `calculateStartPrice(pricingConfig, amazonCost)`: validate the
config, reject a falsy/NaN/non-positive cost, reject a non-positive fee
multiplier, reject a non-finite or non-positive final price, and
otherwise return the rounded price with the breakdown. -/
def calculateStartPrice (cfg : PricingConfig) (amazonCost : JVal) :
    Except PricingError PriceResult :=
  match validatePricingConfig cfg with
  | .error e => .error e
  | .ok _ =>
    if !truthy amazonCost || jsIsNaN amazonCost || jleB amazonCost (.fin 0) then
      .error .invalidCost
    else if jleB (feeMultiplierStep cfg) (.fin 0) then
      .error .feeConfig
    else if !jsIsFinite (finalPriceStep cfg amazonCost)
        || jleB (finalPriceStep cfg amazonCost) (.fin 0) then
      .error .invalidResult
    else
      .ok (mkResult cfg amazonCost)

/-! ### State-passing versions (frame property)

The source works on caller-owned objects.  The only operation in the
three entry points that could mutate its argument is
`Array.prototype.sort`, and the source applies it to the spread copy
`[...tiers]`; everything else (destructuring, property reads,
arithmetic) only reads.  The `St` versions below thread the
caller-visible state (the config with its tiers array) explicitly and
return it alongside the result. -/

/-- `validateProfitTiers` with the caller's array threaded: the sort
happens on the copy, the caller's list is returned as-is. -/
def validateProfitTiersSt (tiers : Option (List Tier)) :
    Except PricingError (List String) × Option (List Tier) :=
  match tiers with
  | none => (.error .tierEmpty, none)
  | some ts =>
    if ts.isEmpty then (.error .tierEmpty, some ts)
    else
      let copy := ts
      let sorted := sortTiers copy
      (checkTiers sorted 0, some ts)

/-- Rebuild a config around a (possibly updated) tiers array. -/
def setTiers (cfg : PricingConfig) (ts : Option (List Tier)) : PricingConfig :=
  match cfg.profitTiers with
  | none => cfg
  | some pt => { cfg with profitTiers := some { pt with tiers := ts } }

/-- `validatePricingConfig` with the caller's config threaded: only
`validateProfitTiersSt` touches an array; the field checks read. -/
def validatePricingConfigSt (cfg : PricingConfig) :
    Except PricingError (List String) × PricingConfig :=
  let tiersAfter :=
    if tieredEnabled cfg then (validateProfitTiersSt (tiersField cfg)).2
    else tiersField cfg
  (validatePricingConfig cfg, setTiers cfg tiersAfter)

/-- `calculateStartPrice` with the caller's config threaded: after
validation every step only reads the destructured values. -/
def calculateStartPriceSt (cfg : PricingConfig) (cost : JVal) :
    Except PricingError PriceResult × PricingConfig :=
  (calculateStartPrice cfg cost, (validatePricingConfigSt cfg).2)

/-! ### Spec-side definitions (for refinement comparisons) -/

/-- `resolveProfit` written from the spec's words: when
`profitTiers.enabled` is false or the tier list is empty return
`desiredProfit`; otherwise scan the tiers in the order supplied and
return the profit of the first tier with
`cost ≥ minCost ∧ (maxCost = null ∨ cost < maxCost)`, falling back to
`desiredProfit` when no tier matches. -/
def resolveProfitSpec (cost : JVal) (cfg : PricingConfig) : JVal :=
  if !tieredEnabled cfg || (tiersList cfg).isEmpty then cfg.desiredProfit
  else
    match (tiersList cfg).find? (tierMatchesB cost) with
    | some t => t.profit
    | none => cfg.desiredProfit

/-- Round-half-away-from-zero on the cent boundary, written from the
spec's words (standard monetary rounding to 2 decimal places). -/
def roundHalfAwayCents (q : ℚ) : ℚ :=
  if 0 ≤ q then (⌊q * 100 + 1/2⌋ : ℤ) / 100 else -((⌊-(q * 100) + 1/2⌋ : ℤ) / 100 : ℚ)

/-- `roundHalfAwayCents` lifted to `JVal` (finite values only; the
specified rounding is applied only after `finalPrice` passed the
finiteness check). -/
def specRound2 (v : JVal) : JVal :=
  match v with
  | .fin q => .fin (roundHalfAwayCents q)
  | w => w

/-- Whether a call result is a success whose price is a number other
than `NaN`. -/
def priceOkNotNaN (r : Except PricingError PriceResult) : Bool :=
  match r with
  | .ok res => !jsIsNaN res.price
  | .error _ => false

/-- `{ cfg with desiredProfit := 0 }` (used to state the "as if the
resolved profit were 0" property). -/
def withZeroProfit (cfg : PricingConfig) : PricingConfig :=
  { cfg with desiredProfit := .fin 0 }

/-! ### Concrete inputs used by the claims -/

/-- The spec's concrete scenario configuration. -/
def cfgC1 : PricingConfig :=
  { spentRate := .fin 83, payoutRate := .fin 80, desiredProfit := .fin 500
    fixedFee := .fin 0, saleTax := .fin 0, ebayFee := .fin (129/10)
    adsFee := .fin 3, tdsFee := .fin 1, shippingCost := .fin 0
    taxRate := .fin 10, profitTiers := none }

/-- The spec's degenerate-fee configuration (`ebayFee=90, adsFee=10,
tdsFee=10, saleTax=0`). -/
def cfgC3 : PricingConfig :=
  { spentRate := .fin 83, payoutRate := .fin 80, desiredProfit := .fin 500
    fixedFee := .fin 0, saleTax := .fin 0, ebayFee := .fin 90
    adsFee := .fin 10, tdsFee := .fin 10, shippingCost := .fin 0
    taxRate := .fin 10, profitTiers := none }

/-- The spec's two-tier example `[{0,50,profit:10},{50,null,profit:20}]`. -/
def tiersC4 : List Tier :=
  [⟨.fin 0, .fin 50, .fin 10⟩, ⟨.fin 50, .jnull, .fin 20⟩]

/-- A tiered configuration carrying the spec's two-tier example. -/
def cfgC4 : PricingConfig :=
  { spentRate := .fin 83, payoutRate := .fin 80, desiredProfit := .fin 500
    fixedFee := .fin 0, saleTax := .fin 0, ebayFee := .fin (129/10)
    adsFee := .fin 3, tdsFee := .fin 1, shippingCost := .fin 0
    taxRate := .fin 10, profitTiers := some { enabled := true, tiers := some tiersC4 } }

/-- A validated flat-profit configuration driving the rounded price to
`0` and the rounded breakdown fee multiplier to `0`: fee percentages
sum to `99.998` (multiplier `0.00002`) and `payoutRate` is huge. -/
def cfgC7 : PricingConfig :=
  { spentRate := .fin 1, payoutRate := .fin 1000000000000, desiredProfit := .fin 1
    fixedFee := .fin 0, saleTax := .fin 0, ebayFee := .fin (99998/1000)
    adsFee := .fin 0, tdsFee := .fin 0, shippingCost := .fin 0
    taxRate := .fin 0, profitTiers := none }

/-- A tiered configuration whose single tier covers `[10, ∞)` and whose
`desiredProfit` is absent (`undefined`). -/
def cfgC10absent : PricingConfig :=
  { spentRate := .fin 83, payoutRate := .fin 80, desiredProfit := .undef
    fixedFee := .fin 0, saleTax := .fin 0, ebayFee := .fin (129/10)
    adsFee := .fin 3, tdsFee := .fin 1, shippingCost := .fin 0
    taxRate := .fin 10
    profitTiers := some { enabled := true, tiers := some [⟨.fin 10, .jnull, .fin 5⟩] } }

/-- Same configuration with `desiredProfit` explicitly `null`. -/
def cfgC10null : PricingConfig :=
  { cfgC10absent with desiredProfit := .jnull }

/-! ### Supporting lemmas -/

/-- The tier scan equals `List.find?` of the match predicate. -/
theorem findTierProfit_eq_find? (cost : JVal) (ts : List Tier) :
    findTierProfit cost ts = (ts.find? (tierMatchesB cost)).map Tier.profit := by
  induction ts with
  | nil => rfl
  | cons t ts ih =>
    by_cases h : tierMatchesB cost t
    · simp [findTierProfit, h]
    · simp only [Bool.not_eq_true] at h
      simp [findTierProfit, h, ih]

@[simp] theorem toNumber_fin (q : ℚ) : (JVal.fin q).toNumber = .fin q := rfl

@[simp] theorem toNumber_nan : (JVal.nan).toNumber = .nan := rfl

@[simp] theorem toNumber_posInf : (JVal.posInf).toNumber = .posInf := rfl

@[simp] theorem toNumber_negInf : (JVal.negInf).toNumber = .negInf := rfl

@[simp] theorem toNumber_jnull : (JVal.jnull).toNumber = .fin 0 := rfl

@[simp] theorem toNumber_undef : (JVal.undef).toNumber = .nan := rfl

/-- Rebuilding a config around its own tiers array is the identity. -/
theorem setTiers_self (cfg : PricingConfig) : setTiers cfg (tiersField cfg) = cfg := by
  cases cfg with
  | mk sr pr dp ff st ef af tf sc tr pts =>
    cases pts with
    | none => rfl
    | some pt => cases pt with | mk en ts => rfl

/-- A field loop that found nothing bad certifies every listed field. -/
theorem firstBadField_eq_none {bad : JVal → Bool} :
    ∀ {l : List (String × JVal)}, firstBadField bad l = none →
      ∀ p ∈ l, bad p.2 = false := by
  intro l
  induction l with
  | nil => intro _ p hp; cases hp
  | cons a l ih =>
    intro h p hp
    cases a with
    | mk n v =>
      unfold firstBadField at h
      by_cases hb : bad v
      · simp [hb] at h
      · simp only [Bool.not_eq_true] at hb
        rcases List.mem_cons.mp hp with hp | hp
        · subst hp; exact hb
        · exact ih (by simpa [hb] using h) p hp

/-- Inversion of a successful `validatePricingConfig`: every
percentage field and both non-negative fields passed their checks. -/
theorem validate_ok_fields {cfg : PricingConfig} {ws : List String}
    (h : validatePricingConfig cfg = .ok ws) :
    percentFieldBad cfg.saleTax = false ∧ percentFieldBad cfg.ebayFee = false ∧
    percentFieldBad cfg.adsFee = false ∧ percentFieldBad cfg.tdsFee = false ∧
    percentFieldBad cfg.taxRate = false ∧ nonNegFieldBad cfg.fixedFee = false ∧
    nonNegFieldBad cfg.shippingCost = false := by
  unfold validatePricingConfig at h
  cases hs : validateStep1 cfg with
  | error e => rw [hs] at h; exact absurd h (by simp)
  | ok ws1 =>
    rw [hs] at h
    simp only [] at h
    cases hp : firstBadField percentFieldBad
        [("saleTax", cfg.saleTax), ("ebayFee", cfg.ebayFee), ("adsFee", cfg.adsFee),
         ("tdsFee", cfg.tdsFee), ("taxRate", cfg.taxRate)] with
    | some n => rw [hp] at h; exact absurd h (by simp)
    | none =>
      rw [hp] at h
      cases hn : firstBadField nonNegFieldBad
          [("fixedFee", cfg.fixedFee), ("shippingCost", cfg.shippingCost)] with
      | some n => rw [hn] at h; exact absurd h (by simp)
      | none =>
        have hps := firstBadField_eq_none hp
        have hns := firstBadField_eq_none hn
        exact ⟨hps ("saleTax", cfg.saleTax) (by simp),
          hps ("ebayFee", cfg.ebayFee) (by simp),
          hps ("adsFee", cfg.adsFee) (by simp),
          hps ("tdsFee", cfg.tdsFee) (by simp),
          hps ("taxRate", cfg.taxRate) (by simp),
          hns ("fixedFee", cfg.fixedFee) (by simp),
          hns ("shippingCost", cfg.shippingCost) (by simp)⟩

/-- A percentage field that passed its check has an effective
(defaulted, coerced) value in `[0, 100]`. -/
theorem percent_ok_toNumber {v : JVal} {d : ℚ} (h : percentFieldBad v = false)
    (hd0 : 0 ≤ d) (hd1 : d ≤ 100) :
    ∃ q : ℚ, (dflt v (.fin d)).toNumber = .fin q ∧ 0 ≤ q ∧ q ≤ 100 := by
  cases v with
  | undef => exact ⟨d, rfl, hd0, hd1⟩
  | jnull => exact ⟨0, rfl, le_refl 0, by norm_num⟩
  | nan => simp [percentFieldBad, jsIsNaN, isUndef, isNull] at h
  | posInf =>
    simp [percentFieldBad, jsIsNaN, isUndef, isNull, jgtB, jltB, numLt] at h
  | negInf =>
    simp [percentFieldBad, jsIsNaN, isUndef, isNull, jgtB, jltB, numLt] at h
  | fin q =>
    have h2 : (false || decide (q < 0) || decide (100 < q)) = false := h
    simp at h2
    exact ⟨q, rfl, h2.1, h2.2⟩

/-- The fee multiplier in terms of the effective percentage values. -/
theorem feeMultiplier_formula {cfg : PricingConfig} {st e a t : ℚ}
    (hst : (effSaleTax cfg).toNumber = .fin st)
    (he : (effEbayFee cfg).toNumber = .fin e)
    (ha : (effAdsFee cfg).toNumber = .fin a)
    (ht : (effTdsFee cfg).toNumber = .fin t) :
    feeMultiplierStep cfg = .fin (1 - (1 + st/100) * ((e + a + t)/100)) := by
  unfold feeMultiplierStep saleTaxMultStep combinedFeesStep jsub jmul jadd jdiv
  rw [hst, he, ha, ht]
  norm_num [numDiv, numAdd, numMul, numNeg]
  ring

/-- `Math.round(p * 100) / 100` on a finite value, as a floor. -/
theorem round2_fin (p : ℚ) :
    round2 (.fin p) = .fin (((⌊p * 100 + 1/2⌋ : ℤ) : ℚ) / 100) := by
  norm_num [round2, jdiv, jmul, jround, numMul, numDiv]

/-- `Math.round(p * 10000) / 10000` on a finite value, as a floor. -/
theorem round4_fin (p : ℚ) :
    round4 (.fin p) = .fin (((⌊p * 10000 + 1/2⌋ : ℤ) : ℚ) / 10000) := by
  norm_num [round4, jdiv, jmul, jround, numMul, numDiv]

/-- A JavaScript division never evaluates to the value `null`. -/
theorem jdiv_ne_jnull (a b : JVal) : jdiv a b ≠ .jnull := by
  unfold jdiv
  generalize a.toNumber = x
  generalize b.toNumber = y
  cases x <;> cases y <;> simp only [numDiv] <;> (repeat' split) <;> simp

/-- A value that is finite after coercion and is not `null` is a
finite number. -/
theorem jsIsFinite_eq_fin {v : JVal} (h : jsIsFinite v = true) (hnull : v ≠ .jnull) :
    ∃ q, v = .fin q := by
  cases v <;> simp_all [jsIsFinite, JVal.toNumber]

/-- Inversion of a successful `calculateStartPrice`: validation
succeeded, every guard passed, and the result is the built object. -/
theorem calc_ok_inversion {cfg : PricingConfig} {cost : JVal} {r : PriceResult}
    (h : calculateStartPrice cfg cost = .ok r) :
    ∃ ws, validatePricingConfig cfg = .ok ws ∧
      (!truthy cost || jsIsNaN cost || jleB cost (.fin 0)) = false ∧
      jleB (feeMultiplierStep cfg) (.fin 0) = false ∧
      jsIsFinite (finalPriceStep cfg cost) = true ∧
      jleB (finalPriceStep cfg cost) (.fin 0) = false ∧
      r = mkResult cfg cost := by
  unfold calculateStartPrice at h
  cases hv : validatePricingConfig cfg with
  | error e => rw [hv] at h; exact absurd h (by simp)
  | ok ws =>
    rw [hv] at h
    simp only [] at h
    split at h
    · exact absurd h (by simp)
    · split at h
      · exact absurd h (by simp)
      · split at h
        · exact absurd h (by simp)
        · rename_i h1 h2 h3
          simp only [Bool.not_eq_true] at h1 h2
          simp only [Bool.not_eq_true, Bool.or_eq_false_iff] at h3
          refine ⟨ws, rfl, h1, h2, ?_, h3.2, (Except.ok.inj h).symm⟩
          revert h3
          cases (finalPriceStep cfg cost).jsIsFinite <;> simp

/-- The fee multiplier of a validated configuration is a finite number
that is at most `1`. -/
theorem feeMultiplier_ok_bounds {cfg : PricingConfig} {ws : List String}
    (hv : validatePricingConfig cfg = .ok ws) :
    ∃ f : ℚ, feeMultiplierStep cfg = .fin f ∧ f ≤ 1 := by
  obtain ⟨hst, he, ha, ht, _, _, _⟩ := validate_ok_fields hv
  obtain ⟨st, hst', hst0, hst1⟩ := percent_ok_toNumber hst (le_refl 0) (by norm_num)
  obtain ⟨e, he', he0, he1⟩ := percent_ok_toNumber (d := 129/10) he (by norm_num) (by norm_num)
  obtain ⟨a, ha', ha0, ha1⟩ := percent_ok_toNumber (d := 3) ha (by norm_num) (by norm_num)
  obtain ⟨t, ht', ht0, ht1⟩ := percent_ok_toNumber (d := 1) ht (by norm_num) (by norm_num)
  refine ⟨_, feeMultiplier_formula hst' he' ha' ht', ?_⟩
  have hx : (0:ℚ) ≤ (1 + st/100) * ((e + a + t)/100) := by positivity
  linarith

/-! ### Claims -/

/-- C1: on the configuration `{spentRate:83, payoutRate:80,
desiredProfit:500, fixedFee:0, saleTax:0, ebayFee:12.9, adsFee:3,
tdsFee:1, shippingCost:0, taxRate:10}` with cost `20`,
`calculateStartPrice` succeeds with the intermediate quantities
`taxAmount = 2`, `buyingPriceSource = 22`, `buyingPriceSettlement =
1826`, `profitComponent = 2326`, `payoutSource = 29.075`,
`withFixedFee = 29.075`, `feeMultiplier = 0.831`, and the returned
price is `29.075/0.831` rounded to 2 decimals, i.e. `34.99`. -/
theorem claim_C1 :
    taxStep cfgC1 (.fin 20) = .fin 2 ∧
    buyingUSDStep cfgC1 (.fin 20) = .fin 22 ∧
    buyingINRStep cfgC1 (.fin 20) = .fin 1826 ∧
    profitComponentStep cfgC1 (.fin 20) = .fin 2326 ∧
    payoutStep cfgC1 (.fin 20) = .fin (29075/1000) ∧
    withFixedFeeStep cfgC1 (.fin 20) = .fin (29075/1000) ∧
    feeMultiplierStep cfgC1 = jsub (.fin 1) (.fin (169/1000)) ∧
    feeMultiplierStep cfgC1 = .fin (831/1000) ∧
    finalPriceStep cfgC1 (.fin 20) = .fin ((29075/1000) / (831/1000)) ∧
    (calculateStartPrice cfgC1 (.fin 20)).map (fun r => r.price) = .ok (.fin (3499/100)) := by
  refine ⟨?_, ?_, ?_, ?_, ?_, ?_, ?_, ?_, ?_, ?_⟩ <;> with_unfolding_all rfl

/-- C2 counterexample: the C1 configuration passes validation, yet
`calculateStartPrice` on the non-finite cost `Infinity` does not fail
with the input-cost error: the `!cost || isNaN(cost) || cost <= 0`
guard lets `Infinity` through and the call fails only at the final
result check (the spec's `ComputationError`). -/
theorem claim_C2_counterexample :
    validatePricingConfig cfgC1 = .ok [] ∧
    calculateStartPrice cfgC1 .posInf = .error .invalidResult ∧
    PricingError.invalidResult ≠ PricingError.invalidCost :=
  ⟨by with_unfolding_all rfl, by with_unfolding_all rfl, by decide⟩

/-- C2 (amended): for a configuration passing validation,
`calculateStartPrice` fails with the input-cost error (`InputError`)
whenever the cost is `NaN`-valued (non-numeric), `null`, a number
`≤ 0`, or `-Infinity` — but a positive infinite cost is not rejected
there (see the counterexample: it proceeds and fails with
`ComputationError`). -/
theorem claim_C2_amended (cfg : PricingConfig) (ws : List String) (cost : JVal)
    (hv : validatePricingConfig cfg = .ok ws)
    (hbad : cost.toNumber = .nan ∨ cost = .jnull ∨
      (∃ q : ℚ, q ≤ 0 ∧ cost.toNumber = .fin q) ∨ cost.toNumber = .negInf) :
    calculateStartPrice cfg cost = .error .invalidCost := by
  have hguard : (!truthy cost || jsIsNaN cost || jleB cost (.fin 0)) = true := by
    rcases hbad with h | h | ⟨q, hq, h⟩ | h
    · simp [jsIsNaN, h]
    · subst h; rfl
    · have h0 : jleB cost (.fin 0) = true := by
        unfold jleB
        rw [h]
        simp [numLe, JVal.toNumber, hq]
      simp [h0]
    · have h0 : jleB cost (.fin 0) = true := by
        unfold jleB
        rw [h]
        simp [numLe, JVal.toNumber]
      simp [h0]
  unfold calculateStartPrice
  rw [hv]
  simp only [hguard, if_pos]

/-- C2 witness: the amended theorem applied to the C1 configuration and
the cost `-5`. -/
theorem claim_C2_witness : calculateStartPrice cfgC1 (.fin (-5)) = .error .invalidCost :=
  claim_C2_amended cfgC1 [] (.fin (-5)) (by with_unfolding_all rfl)
    (Or.inr (Or.inr (Or.inl ⟨-5, by norm_num, rfl⟩)))

/-- C4: `getApplicableProfit` coincides on every input with the spec's
`resolveProfit` (fixed `desiredProfit` when tiered profit is disabled
or the tier list is empty, otherwise the first tier in supplied order
with `cost ≥ minCost ∧ (maxCost = null ∨ cost < maxCost)`, with
fallback to `desiredProfit`); and on the two-tier example
`[{0,50,10},{50,null,20}]` it returns `10` for cost `30`, `20` for
cost `50`, `10` for cost `0`, and `10` for cost `49.999`. -/
theorem claim_C4 :
    (∀ (cfg : PricingConfig) (cost : JVal),
      getApplicableProfit cost cfg = resolveProfitSpec cost cfg) ∧
    getApplicableProfit (.fin 30) cfgC4 = .fin 10 ∧
    getApplicableProfit (.fin 50) cfgC4 = .fin 20 ∧
    getApplicableProfit (.fin 0) cfgC4 = .fin 10 ∧
    getApplicableProfit (.fin (49999/1000)) cfgC4 = .fin 10 := by
  refine ⟨?_, ?_, ?_, ?_, ?_⟩
  · intro cfg cost
    unfold getApplicableProfit resolveProfitSpec tieredEnabled tiersList tiersField
    cases h : cfg.profitTiers with
    | none => simp
    | some pt =>
      cases he : pt.enabled with
      | false => simp [he]
      | true =>
        cases ht : pt.tiers with
        | none => simp [he, ht]
        | some ts =>
          cases ts with
          | nil => simp [he, ht]
          | cons t ts' =>
            simp only [he, ht, Bool.not_true, Bool.false_eq_true, if_false,
              Option.getD_some, findTierProfit_eq_find?]
            cases hf : (t :: ts').find? (tierMatchesB cost) with
            | none => simp [hf]
            | some u => simp [hf]
  all_goals with_unfolding_all rfl

/-- C3: for every configuration that passes validation and every
finite cost > 0, if the effective percentages satisfy
`(1 + saleTax/100) * ((ebayFee + adsFee + tdsFee)/100) ≥ 1` — i.e. the
fee multiplier is ≤ 0, including exactly 0 — then
`calculateStartPrice` fails with the fee-configuration error and
returns no result.  The witness instantiates this at
`ebayFee=90, adsFee=10, tdsFee=10, saleTax=0`. -/
theorem claim_C3 (cfg : PricingConfig) (ws : List String) (st e a t q : ℚ)
    (hv : validatePricingConfig cfg = .ok ws)
    (hst : (effSaleTax cfg).toNumber = .fin st)
    (he : (effEbayFee cfg).toNumber = .fin e)
    (ha : (effAdsFee cfg).toNumber = .fin a)
    (ht : (effTdsFee cfg).toNumber = .fin t)
    (hfee : 1 ≤ (1 + st/100) * ((e + a + t)/100))
    (hq : 0 < q) :
    calculateStartPrice cfg (.fin q) = .error .feeConfig := by
  have hfm := feeMultiplier_formula hst he ha ht
  have hguard : (!truthy (.fin q) || jsIsNaN (.fin q) || jleB (.fin q) (.fin 0)) = false := by
    simp [truthy, jsIsNaN, jleB, numLe, hq.ne', not_le.mpr hq]
  have hle : jleB (feeMultiplierStep cfg) (.fin 0) = true := by
    rw [hfm]
    simp only [jleB, toNumber_fin, numLe, decide_eq_true_eq]
    linarith
  unfold calculateStartPrice
  rw [hv]
  simp only [hguard, Bool.false_eq_true, if_false, hle, if_true]

/-- C3 witness: the degenerate configuration `ebayFee=90, adsFee=10,
tdsFee=10, saleTax=0` with cost 1 fails with the fee-configuration
error. -/
theorem claim_C3_witness : calculateStartPrice cfgC3 (.fin 1) = .error .feeConfig :=
  claim_C3 cfgC3 [] 0 90 10 10 1 (by with_unfolding_all rfl) rfl rfl rfl rfl
    (by norm_num) (by norm_num)

/-- C9: the three entry points leave the caller's configuration (and
its tiers array, order included) unchanged: in the state-passing
embedding, which threads the only array the source could mutate (the
sort runs on the spread copy `[...tiers]`), each function returns its
input state identically. -/
theorem claim_C9 :
    (∀ tiers : Option (List Tier), (validateProfitTiersSt tiers).2 = tiers) ∧
    (∀ cfg : PricingConfig, (validatePricingConfigSt cfg).2 = cfg) ∧
    (∀ (cfg : PricingConfig) (cost : JVal), (calculateStartPriceSt cfg cost).2 = cfg) := by
  have h1 : ∀ tiers : Option (List Tier), (validateProfitTiersSt tiers).2 = tiers := by
    intro tiers
    cases tiers with
    | none => rfl
    | some ts => by_cases h : ts.isEmpty = true <;> simp [validateProfitTiersSt, h]
  have h2 : ∀ cfg : PricingConfig, (validatePricingConfigSt cfg).2 = cfg := by
    intro cfg
    unfold validatePricingConfigSt
    cases ht : tieredEnabled cfg with
    | true => simp only [ht, if_true, h1]; exact setTiers_self cfg
    | false => simp only [ht, Bool.false_eq_true, if_false]; exact setTiers_self cfg
  exact ⟨h1, h2, fun cfg _ => h2 cfg⟩

/-- C7 counterexample: a flat-profit configuration that passes
validation (fees summing to 99.998 percent, huge `payoutRate`) on
which `calculateStartPrice` succeeds with returned price `0` (not
`> 0`) and breakdown `feeMultiplier` `0` (not in `(0,1]`): the
positive unrounded values round down to zero. -/
theorem claim_C7_counterexample :
    validatePricingConfig cfgC7 = .ok [] ∧
    (calculateStartPrice cfgC7 (.fin 1)).map (fun r => (r.price, r.breakdown.feeMultiplier))
      = .ok (.fin 0, .fin 0) :=
  ⟨by with_unfolding_all rfl, by with_unfolding_all rfl⟩

/-- C7 (amended): for every flat-profit configuration passing
validation and finite cost > 0 on which `calculateStartPrice`
succeeds, the unrounded final price is > 0 and the internal fee
multiplier lies in `(0, 1]`; the returned price (the final price
rounded to cents) is therefore ≥ 0 — it can round to exactly 0 — and
the breakdown fee multiplier (rounded to 4 decimals) lies in `[0, 1]`. -/
theorem claim_C7_amended (cfg : PricingConfig) (ws : List String) (q : ℚ) (r : PriceResult)
    (hflat : tieredEnabled cfg = false)
    (hv : validatePricingConfig cfg = .ok ws)
    (hq : 0 < q)
    (hok : calculateStartPrice cfg (.fin q) = .ok r) :
    (∃ f : ℚ, feeMultiplierStep cfg = .fin f ∧ 0 < f ∧ f ≤ 1) ∧
    (∃ p : ℚ, finalPriceStep cfg (.fin q) = .fin p ∧ 0 < p) ∧
    (∃ p' : ℚ, r.price = .fin p' ∧ 0 ≤ p') ∧
    (∃ f' : ℚ, r.breakdown.feeMultiplier = .fin f' ∧ 0 ≤ f' ∧ f' ≤ 1) := by
  obtain ⟨ws', _, _, hfmle, hfin, hfple, hr⟩ := calc_ok_inversion hok
  obtain ⟨f, hf, hf1⟩ := feeMultiplier_ok_bounds hv
  have hf0 : 0 < f := by
    rw [hf] at hfmle
    simp only [jleB, toNumber_fin, numLe, decide_eq_false_iff_not, not_le] at hfmle
    exact hfmle
  obtain ⟨p, hp⟩ : ∃ p : ℚ, finalPriceStep cfg (.fin q) = .fin p :=
    jsIsFinite_eq_fin hfin (jdiv_ne_jnull _ _)
  have hp0 : 0 < p := by
    rw [hp] at hfple
    simp only [jleB, toNumber_fin, numLe, decide_eq_false_iff_not, not_le] at hfple
    exact hfple
  refine ⟨⟨f, hf, hf0, hf1⟩, ⟨p, hp, hp0⟩, ?_, ?_⟩
  · refine ⟨((⌊p * 100 + 1/2⌋ : ℤ) : ℚ) / 100, ?_, ?_⟩
    · rw [hr]
      show round2 (finalPriceStep cfg (.fin q)) = _
      rw [hp, round2_fin]
    · have hfl : (0:ℤ) ≤ ⌊p * 100 + 1/2⌋ := by
        rw [Int.le_floor]
        push_cast
        linarith
      have h0 : (0:ℚ) ≤ ((⌊p * 100 + 1/2⌋ : ℤ) : ℚ) := by exact_mod_cast hfl
      exact div_nonneg h0 (by norm_num)
  · refine ⟨((⌊f * 10000 + 1/2⌋ : ℤ) : ℚ) / 10000, ?_, ?_, ?_⟩
    · rw [hr]
      show round4 (feeMultiplierStep cfg) = _
      rw [hf, round4_fin]
    · have hfl : (0:ℤ) ≤ ⌊f * 10000 + 1/2⌋ := by
        rw [Int.le_floor]
        push_cast
        linarith
      have h0 : (0:ℚ) ≤ ((⌊f * 10000 + 1/2⌋ : ℤ) : ℚ) := by exact_mod_cast hfl
      exact div_nonneg h0 (by norm_num)
    · have hten : ⌊(10000:ℚ) + 1/2⌋ = (10000:ℤ) := by
        rw [Int.floor_eq_iff] <;> norm_num
      have hub : ⌊f * 10000 + 1/2⌋ ≤ (10000:ℤ) := by
        have hle : f * 10000 + 1/2 ≤ (10000:ℚ) + 1/2 := by linarith
        calc ⌊f * 10000 + 1/2⌋ ≤ ⌊(10000:ℚ) + 1/2⌋ := Int.floor_le_floor hle
          _ = 10000 := hten
      have hub' : ((⌊f * 10000 + 1/2⌋ : ℤ) : ℚ) ≤ 10000 := by exact_mod_cast hub
      exact (div_le_one (by norm_num)).mpr hub'

/-- C7 witness: the amended theorem applied to the spec's concrete
scenario (cost 20 on the C1 configuration). -/
theorem claim_C7_witness :
    (∃ f : ℚ, feeMultiplierStep cfgC1 = .fin f ∧ 0 < f ∧ f ≤ 1) ∧
    (∃ p : ℚ, finalPriceStep cfgC1 (.fin 20) = .fin p ∧ 0 < p) ∧
    (∃ p' : ℚ, (mkResult cfgC1 (.fin 20)).price = .fin p' ∧ 0 ≤ p') ∧
    (∃ f' : ℚ, (mkResult cfgC1 (.fin 20)).breakdown.feeMultiplier = .fin f' ∧
      0 ≤ f' ∧ f' ≤ 1) :=
  claim_C7_amended cfgC1 [] 20 (mkResult cfgC1 (.fin 20)) rfl
    (by with_unfolding_all rfl) (by norm_num) (by with_unfolding_all rfl)

/-- C8: the returned price of every successful call equals the
unrounded final price rounded to 2 decimal places with
round-half-away-from-zero on the cent boundary (`specRound2`, written
from the spec's words); and on every positive value the
implementation's rounding (`Math.round(x*100)/100`) coincides with
that monetary rounding. -/
theorem claim_C8 :
    (∀ (cfg : PricingConfig) (cost : JVal) (r : PriceResult),
      calculateStartPrice cfg cost = .ok r →
      r.price = specRound2 (finalPriceStep cfg cost)) ∧
    (∀ p : ℚ, 0 < p → round2 (.fin p) = .fin (roundHalfAwayCents p)) := by
  have key : ∀ p : ℚ, 0 ≤ p → round2 (.fin p) = .fin (roundHalfAwayCents p) := by
    intro p hp
    rw [round2_fin]
    unfold roundHalfAwayCents
    rw [if_pos hp]
  constructor
  · intro cfg cost r hok
    obtain ⟨ws, hv, hguard, hfm, hfin, hfple, hr⟩ := calc_ok_inversion hok
    obtain ⟨p, hp⟩ : ∃ p : ℚ, finalPriceStep cfg cost = .fin p :=
      jsIsFinite_eq_fin hfin (jdiv_ne_jnull _ _)
    have hp0 : 0 < p := by
      rw [hp] at hfple
      simp only [jleB, toNumber_fin, numLe, decide_eq_false_iff_not, not_le] at hfple
      exact hfple
    rw [hr]
    show round2 (finalPriceStep cfg cost) = specRound2 (finalPriceStep cfg cost)
    rw [hp]
    show round2 (.fin p) = .fin (roundHalfAwayCents p)
    exact key p hp0.le
  · exact fun p hp => key p hp.le

/-- C8 witness: on the spec's concrete scenario the returned price is
the spec-rounded final price, and the implementation rounding agrees
with the monetary rounding at `1/2`. -/
theorem claim_C8_witness :
    (mkResult cfgC1 (.fin 20)).price = specRound2 (finalPriceStep cfgC1 (.fin 20)) ∧
    round2 (.fin (1/2)) = .fin (roundHalfAwayCents (1/2)) :=
  ⟨claim_C8.1 cfgC1 (.fin 20) (mkResult cfgC1 (.fin 20)) (by with_unfolding_all rfl),
   claim_C8.2 (1/2) (by norm_num)⟩

/-! ### Tier-loop characterization (for C5 and C6) -/

/-- All three per-tier structural checks of the loop body pass. -/
def structOkB (t : Tier) : Bool :=
  !minCostBad t && !profitBad t && !maxCostBad t

/-- The loop's adjacency checks pass for a consecutive (sorted) pair:
bounded `maxCost`, no overlap, and contiguity. -/
def pairContB (a b : Tier) : Bool :=
  !(isNull a.maxCost || isUndef a.maxCost) && !jgtB a.maxCost b.minCost &&
    strictEq a.maxCost b.minCost

/-- The warnings the loop emits: one warning iff the last tier has a
bounded (non-null, non-undefined) `maxCost`. -/
def lastWarnings : List Tier → List String
  | [] => []
  | [t] => if !(isNull t.maxCost || isUndef t.maxCost) then [lastTierWarn] else []
  | _ :: rest => lastWarnings rest

/-- A structurally valid, contiguous head is skipped by the loop. -/
theorem checkTiers_cons_skip {t u : Tier} {rest : List Tier} {i : Nat}
    (hs : structOkB t = true) (hp : pairContB t u = true) :
    checkTiers (t :: u :: rest) i = checkTiers (u :: rest) (i + 1) := by
  unfold structOkB at hs
  unfold pairContB at hp
  simp only [Bool.and_eq_true, Bool.not_eq_true'] at hs hp
  obtain ⟨⟨h1, h2⟩, h3⟩ := hs
  obtain ⟨⟨h4, h5⟩, h6⟩ := hp
  conv_lhs => unfold checkTiers
  simp [h1, h2, h3, h4, h5, h6]

/-- A structurally valid head whose bounded `maxCost` differs from the
next tier's `minCost` makes the loop fail at this pair: overlap when it
exceeds, continuity (gap) otherwise. -/
theorem checkTiers_pair_err {t u : Tier} {rest : List Tier} {i : Nat} {m n : ℚ}
    (hs : structOkB t = true) (hm : t.maxCost = .fin m) (hn : u.minCost = .fin n)
    (hne : m ≠ n) :
    checkTiers (t :: u :: rest) i =
      .error (if n < m then .tierOverlap (i+1) (i+2) else .tierGap (i+1) (i+2)) := by
  unfold structOkB at hs
  simp only [Bool.and_eq_true, Bool.not_eq_true'] at hs
  obtain ⟨⟨h1, h2⟩, h3⟩ := hs
  have hnullm : (isNull t.maxCost || isUndef t.maxCost) = false := by
    rw [hm]; rfl
  have hgt : jgtB t.maxCost u.minCost = decide (n < m) := by
    rw [hm, hn]; rfl
  have hseq : strictEq t.maxCost u.minCost = false := by
    rw [hm, hn]; simp [strictEq, hne]
  by_cases hlt : n < m
  · conv_lhs => unfold checkTiers
    simp [h1, h2, h3, hnullm, hgt, hlt]
  · conv_lhs => unfold checkTiers
    simp [h1, h2, h3, hnullm, hgt, hlt, hseq]

/-- A structurally valid non-last head with `null`/`undefined`
`maxCost` makes the loop fail with the only-last-unbounded error. -/
theorem checkTiers_null_head {t u : Tier} {rest : List Tier} {i : Nat}
    (hs : structOkB t = true)
    (hnull : (isNull t.maxCost || isUndef t.maxCost) = true) :
    checkTiers (t :: u :: rest) i = .error (.tierOnlyLastNull (i+1)) := by
  unfold structOkB at hs
  simp only [Bool.and_eq_true, Bool.not_eq_true'] at hs
  obtain ⟨⟨h1, h2⟩, h3⟩ := hs
  conv_lhs => unfold checkTiers
  simp [h1, h2, h3, hnull]

/-- When every tier is structurally valid and every consecutive pair is
contiguous, the loop succeeds, with exactly the last-tier warning. -/
theorem checkTiers_ok {S : List Tier}
    (hs : ∀ t ∈ S, structOkB t = true)
    (hp : ∀ (k : Nat) (a b : Tier), S[k]? = some a → S[k+1]? = some b →
      pairContB a b = true) :
    ∀ i : Nat, checkTiers S i = .ok (lastWarnings S) := by
  induction S with
  | nil => intro i; rfl
  | cons t rest ih =>
    intro i
    cases rest with
    | nil =>
      have hst := hs t (by simp)
      unfold structOkB at hst
      simp only [Bool.and_eq_true, Bool.not_eq_true'] at hst
      obtain ⟨⟨h1, h2⟩, h3⟩ := hst
      conv_lhs => unfold checkTiers
      conv_rhs => unfold lastWarnings
      simp only [h1, h2, h3, Bool.false_eq_true, if_false]
      split <;> simp_all
    | cons u rest' =>
      have hst := hs t (by simp)
      have hpt := hp 0 t u (by simp) (by simp)
      rw [checkTiers_cons_skip hst hpt]
      show checkTiers (u :: rest') (i + 1) = Except.ok (lastWarnings (u :: rest'))
      exact ih (fun x hx => hs x (by simp [hx]))
        (fun k a b hka hkb => hp (k+1) a b (by simpa using hka) (by simpa using hkb))
        (i + 1)

/-- When every tier is structurally valid, the first `j` consecutive
pairs are contiguous, and pair `j` has a bounded `maxCost` different
from the next `minCost`, the loop fails at pair `j` with the overlap or
continuity error naming the 1-based positions `i+j+1` and `i+j+2`. -/
theorem checkTiers_err_at :
    ∀ (j : Nat) (S : List Tier) (i : Nat) (tj tj1 : Tier) (m n : ℚ),
    (∀ t ∈ S, structOkB t = true) →
    (∀ k : Nat, k < j → ∀ a b : Tier, S[k]? = some a → S[k+1]? = some b →
      pairContB a b = true) →
    S[j]? = some tj → S[j+1]? = some tj1 →
    tj.maxCost = .fin m → tj1.minCost = .fin n → m ≠ n →
    checkTiers S i =
      .error (if n < m then .tierOverlap (i+j+1) (i+j+2) else .tierGap (i+j+1) (i+j+2)) := by
  intro j
  induction j with
  | zero =>
    intro S i tj tj1 m n hs _ hj hj1 hm hn hne
    cases S with
    | nil => simp at hj
    | cons a S' =>
      cases S' with
      | nil => simp at hj1
      | cons b S'' =>
        have ha : a = tj := by simpa using hj
        have hb : b = tj1 := by simpa using hj1
        subst ha; subst hb
        simpa using checkTiers_pair_err (hs a (by simp)) hm hn hne
  | succ j' ih =>
    intro S i tj tj1 m n hs hpre hj hj1 hm hn hne
    cases S with
    | nil => simp at hj
    | cons a S' =>
      cases S' with
      | nil => simp at hj1
      | cons b S'' =>
        have hsa := hs a (by simp)
        have hpab := hpre 0 (Nat.succ_pos j') a b (by simp) (by simp)
        rw [checkTiers_cons_skip hsa hpab]
        have hrec := ih (b :: S'') (i+1) tj tj1 m n
          (fun x hx => hs x (by simp [hx]))
          (fun k hk x y hkx hky =>
            hpre (k+1) (by omega) x y (by simpa using hkx) (by simpa using hky))
          (by simpa using hj) (by simpa using hj1) hm hn hne
        rw [hrec]
        have e1 : i + 1 + j' + 1 = i + (j' + 1) + 1 := by omega
        have e2 : i + 1 + j' + 2 = i + (j' + 1) + 2 := by omega
        rw [e1, e2]

/-- Like `checkTiers_err_at`, for a `null`/`undefined` `maxCost` on a
non-last tier: the loop fails with the only-last-unbounded error. -/
theorem checkTiers_null_at :
    ∀ (j : Nat) (S : List Tier) (i : Nat) (tj tj1 : Tier),
    (∀ t ∈ S, structOkB t = true) →
    (∀ k : Nat, k < j → ∀ a b : Tier, S[k]? = some a → S[k+1]? = some b →
      pairContB a b = true) →
    S[j]? = some tj → S[j+1]? = some tj1 →
    (isNull tj.maxCost || isUndef tj.maxCost) = true →
    checkTiers S i = .error (.tierOnlyLastNull (i+j+1)) := by
  intro j
  induction j with
  | zero =>
    intro S i tj tj1 hs _ hj hj1 hnull
    cases S with
    | nil => simp at hj
    | cons a S' =>
      cases S' with
      | nil => simp at hj1
      | cons b S'' =>
        have ha : a = tj := by simpa using hj
        subst ha
        simpa using checkTiers_null_head (hs a (by simp)) hnull
  | succ j' ih =>
    intro S i tj tj1 hs hpre hj hj1 hnull
    cases S with
    | nil => simp at hj
    | cons a S' =>
      cases S' with
      | nil => simp at hj1
      | cons b S'' =>
        have hsa := hs a (by simp)
        have hpab := hpre 0 (Nat.succ_pos j') a b (by simp) (by simp)
        rw [checkTiers_cons_skip hsa hpab]
        have hrec := ih (b :: S'') (i+1) tj tj1
          (fun x hx => hs x (by simp [hx]))
          (fun k hk x y hkx hky =>
            hpre (k+1) (by omega) x y (by simpa using hkx) (by simpa using hky))
          (by simpa using hj) (by simpa using hj1) hnull
        rw [hrec]
        have e1 : i + 1 + j' + 1 = i + (j' + 1) + 1 := by omega
        rw [e1]

/-- The spec's overlap example `[{0,60},{50,null}]` (profits 10, 20). -/
def tiersOverlapC5 : List Tier :=
  [⟨.fin 0, .fin 60, .fin 10⟩, ⟨.fin 50, .jnull, .fin 20⟩]

/-- The spec's gap example `[{0,40},{50,null}]` (profits 10, 20). -/
def tiersGapC5 : List Tier :=
  [⟨.fin 0, .fin 40, .fin 10⟩, ⟨.fin 50, .jnull, .fin 20⟩]

/-- A non-last unbounded tier: `[{0,null},{50,null}]`. -/
def tiersNullMidC6 : List Tier :=
  [⟨.fin 0, .jnull, .fin 10⟩, ⟨.fin 50, .jnull, .fin 20⟩]

/-- A single tier whose `maxCost` is bounded (warning case). -/
def tiersBoundedLastC6 : List Tier :=
  [⟨.fin 0, .fin 50, .fin 10⟩]

/-- C5: for tier lists whose tiers are all structurally valid, when —
after sorting by `minCost` ascending — the first `j` consecutive pairs
are contiguous and pair `j` has a numeric `maxCost` `m` different from
the next tier's `minCost` `n`, `validateProfitTiers` fails with the
overlap error naming the 1-based sorted indices `j+1`, `j+2` when
`m > n`, and with the continuity (gap) error naming the same indices
when `m < n`; in particular `[{0,60},{50,null}]` fails with the
overlap error naming tiers 1 and 2, and `[{0,40},{50,null}]` fails
with the continuity error naming tiers 1 and 2. -/
theorem claim_C5 :
    (∀ (ts : List Tier) (j : Nat) (tj tj1 : Tier) (m n : ℚ),
      ts ≠ [] →
      (∀ t ∈ sortTiers ts, structOkB t = true) →
      (∀ k : Nat, k < j → ∀ a b : Tier, (sortTiers ts)[k]? = some a →
        (sortTiers ts)[k+1]? = some b → pairContB a b = true) →
      (sortTiers ts)[j]? = some tj → (sortTiers ts)[j+1]? = some tj1 →
      tj.maxCost = .fin m → tj1.minCost = .fin n → m ≠ n →
      validateProfitTiers (some ts) =
        .error (if n < m then .tierOverlap (j+1) (j+2) else .tierGap (j+1) (j+2))) ∧
    validateProfitTiers (some tiersOverlapC5) = .error (.tierOverlap 1 2) ∧
    validateProfitTiers (some tiersGapC5) = .error (.tierGap 1 2) := by
  refine ⟨?_, by with_unfolding_all rfl, by with_unfolding_all rfl⟩
  intro ts j tj tj1 m n hne hs hpre hj hj1 hm hn hmn
  unfold validateProfitTiers
  show (if ts.isEmpty = true then Except.error PricingError.tierEmpty
    else checkTiers (sortTiers ts) 0) = _
  rw [if_neg (by simpa using hne)]
  have h := checkTiers_err_at j (sortTiers ts) 0 tj tj1 m n hs hpre hj hj1 hm hn hmn
  simpa using h

/-- C5 witness: the general statement applied to the overlap example
(sorted pair 0 has `maxCost 60 > minCost 50` of tier 2). -/
theorem claim_C5_witness : validateProfitTiers (some tiersOverlapC5) = .error (.tierOverlap 1 2) := by
  have h := claim_C5.1 tiersOverlapC5 0 ⟨.fin 0, .fin 60, .fin 10⟩ ⟨.fin 50, .jnull, .fin 20⟩
    60 50 (by simp [tiersOverlapC5]) (by with_unfolding_all decide)
    (fun k hk => absurd hk (Nat.not_lt_zero k))
    (by with_unfolding_all rfl) (by with_unfolding_all rfl) rfl rfl (by norm_num)
  rw [h, if_pos (by norm_num)]

/-- C6: for tier lists whose tiers are all structurally valid, after
sorting by `minCost` ascending: (a) whenever — with the first `j`
consecutive pairs contiguous — the non-last tier at sorted position
`j` has a `null` or `undefined` `maxCost`, `validateProfitTiers` fails
with the only-last-unbounded `TierError` naming position `j+1`; and
(b) when every consecutive pair is contiguous, validation does not
fail regardless of the last tier's `maxCost`: it returns successfully,
surfacing exactly one non-fatal warning when the last sorted tier's
`maxCost` is neither `null` nor `undefined` and none otherwise. -/
theorem claim_C6 :
    (∀ (ts : List Tier) (j : Nat) (tj tj1 : Tier),
      ts ≠ [] →
      (∀ t ∈ sortTiers ts, structOkB t = true) →
      (∀ k : Nat, k < j → ∀ a b : Tier, (sortTiers ts)[k]? = some a →
        (sortTiers ts)[k+1]? = some b → pairContB a b = true) →
      (sortTiers ts)[j]? = some tj → (sortTiers ts)[j+1]? = some tj1 →
      (isNull tj.maxCost || isUndef tj.maxCost) = true →
      validateProfitTiers (some ts) = .error (.tierOnlyLastNull (j+1))) ∧
    (∀ ts : List Tier,
      ts ≠ [] →
      (∀ t ∈ sortTiers ts, structOkB t = true) →
      (∀ (k : Nat) (a b : Tier), (sortTiers ts)[k]? = some a →
        (sortTiers ts)[k+1]? = some b → pairContB a b = true) →
      validateProfitTiers (some ts) = .ok (lastWarnings (sortTiers ts))) := by
  constructor
  · intro ts j tj tj1 hne hs hpre hj hj1 hnull
    unfold validateProfitTiers
    show (if ts.isEmpty = true then Except.error PricingError.tierEmpty
      else checkTiers (sortTiers ts) 0) = _
    rw [if_neg (by simpa using hne)]
    have h := checkTiers_null_at j (sortTiers ts) 0 tj tj1 hs hpre hj hj1 hnull
    simpa using h
  · intro ts hne hs hp
    unfold validateProfitTiers
    show (if ts.isEmpty = true then Except.error PricingError.tierEmpty
      else checkTiers (sortTiers ts) 0) = _
    rw [if_neg (by simpa using hne)]
    exact checkTiers_ok hs hp 0

/-- C6 witness: part (a) applied to `[{0,null},{50,null}]` (fails
naming tier 1), and part (b) applied to a single bounded tier
(succeeds with exactly the warning). -/
theorem claim_C6_witness :
    validateProfitTiers (some tiersNullMidC6) = .error (.tierOnlyLastNull 1) ∧
    validateProfitTiers (some tiersBoundedLastC6) = .ok [lastTierWarn] := by
  constructor
  · exact claim_C6.1 tiersNullMidC6 0 ⟨.fin 0, .jnull, .fin 10⟩ ⟨.fin 50, .jnull, .fin 20⟩
      (by simp [tiersNullMidC6]) (by with_unfolding_all decide)
      (fun k hk => absurd hk (Nat.not_lt_zero k))
      (by with_unfolding_all rfl) (by with_unfolding_all rfl) rfl
  · have h := claim_C6.2 tiersBoundedLastC6 (by simp [tiersBoundedLastC6])
      (by with_unfolding_all decide)
      (fun k a b hka hkb => by simp [tiersBoundedLastC6, sortTiers, insertTier] at hkb)
    rw [h]
    with_unfolding_all rfl

/-! ### Finite-arithmetic helpers and the no-match fallback (for C10) -/

/-- Addition of values with finite coercions. -/
theorem jadd_fin {a b : JVal} {x y : ℚ} (hx : a.toNumber = .fin x)
    (hy : b.toNumber = .fin y) : jadd a b = .fin (x + y) := by
  unfold jadd; rw [hx, hy]; rfl

/-- Multiplication of values with finite coercions. -/
theorem jmul_fin {a b : JVal} {x y : ℚ} (hx : a.toNumber = .fin x)
    (hy : b.toNumber = .fin y) : jmul a b = .fin (x * y) := by
  unfold jmul; rw [hx, hy]; rfl

/-- Division of values with finite coercions, nonzero divisor. -/
theorem jdiv_fin {a b : JVal} {x y : ℚ} (hx : a.toNumber = .fin x)
    (hy : b.toNumber = .fin y) (hy0 : y ≠ 0) : jdiv a b = .fin (x / y) := by
  unfold jdiv; rw [hx, hy]; simp [numDiv, hy0]

/-- The scan finds nothing when no tier matches. -/
theorem findTierProfit_none {cost : JVal} {ts : List Tier}
    (h : ∀ t ∈ ts, tierMatchesB cost t = false) : findTierProfit cost ts = none := by
  induction ts with
  | nil => rfl
  | cons t ts ih =>
    simp [findTierProfit, h t (by simp), ih (fun x hx => h x (by simp [hx]))]

/-- When no tier matches the cost, `getApplicableProfit` falls back to
`desiredProfit` (whatever the tier mode). -/
theorem getApplicableProfit_fallback {cfg : PricingConfig} {cost : JVal}
    (hnm : ∀ t ∈ tiersList cfg, tierMatchesB cost t = false) :
    getApplicableProfit cost cfg = cfg.desiredProfit := by
  unfold getApplicableProfit
  cases h : cfg.profitTiers with
  | none => rfl
  | some pt =>
    cases he : pt.enabled with
    | false => simp [he]
    | true =>
      cases ht : pt.tiers with
      | none => simp [he, ht]
      | some ts =>
        have hts : tiersList cfg = ts := by
          unfold tiersList tiersField; simp [h, ht]
        simp only [he, ht, Bool.not_true, Bool.false_eq_true, if_false]
        rw [findTierProfit_none (hts ▸ hnm)]
        simp

/-- C10 counterexample: a validated tiered configuration with an
absent (`undefined`) `desiredProfit` and a cost matching no tier does
NOT succeed: `undefined` propagates as `NaN` through the arithmetic
and the call fails at the final result check (the spec's
`ComputationError`). -/
theorem claim_C10_counterexample :
    validatePricingConfig cfgC10absent = .ok [] ∧
    calculateStartPrice cfgC10absent (.fin 5) = .error .invalidResult :=
  ⟨by with_unfolding_all rfl, by with_unfolding_all rfl⟩

/-- C10 (amended): for a validated configuration with tiered profit
enabled, a non-empty tier list, `desiredProfit` equal to `null` (not
absent — see the counterexample), and a finite cost > 0 matching no
tier, `calculateStartPrice` raises no error and returns no `NaN`
provided the fee multiplier is positive and — unvalidated in tiered
mode — the rates are positive numbers and shipping/fixed-fee are
finite and non-negative: the call succeeds, the `null` fallback profit
contributes exactly `0` to `profitComponent`, and the unrounded final
price equals the one computed with `desiredProfit = 0`. -/
theorem claim_C10_amended (cfg : PricingConfig) (ws : List String) (q sr pr sh ff tr fm : ℚ)
    (hv : validatePricingConfig cfg = .ok ws)
    (hten : tieredEnabled cfg = true)
    (hne : tiersList cfg ≠ [])
    (hdp : cfg.desiredProfit = .jnull)
    (hq : 0 < q)
    (hnm : ∀ t ∈ tiersList cfg, tierMatchesB (.fin q) t = false)
    (hsr : cfg.spentRate.toNumber = .fin sr) (hsr0 : 0 < sr)
    (hpr : cfg.payoutRate.toNumber = .fin pr) (hpr0 : 0 < pr)
    (hsh : (effShipping cfg).toNumber = .fin sh) (hsh0 : 0 ≤ sh)
    (hff : (effFixedFee cfg).toNumber = .fin ff) (hff0 : 0 ≤ ff)
    (htr : (effTaxRate cfg).toNumber = .fin tr) (htr0 : 0 ≤ tr)
    (hfm : feeMultiplierStep cfg = .fin fm) (hfm0 : 0 < fm) :
    calculateStartPrice cfg (.fin q) = .ok (mkResult cfg (.fin q)) ∧
    priceOkNotNaN (calculateStartPrice cfg (.fin q)) = true ∧
    profitComponentStep cfg (.fin q) = .fin (0 + (q + sh + q * (tr/100)) * sr) ∧
    finalPriceStep cfg (.fin q) = finalPriceStep (withZeroProfit cfg) (.fin q) := by
  have hprof : getApplicableProfit (.fin q) cfg = .jnull := by
    rw [getApplicableProfit_fallback hnm, hdp]
  have htax : taxStep cfg (.fin q) = .fin (q * (tr/100)) :=
    jmul_fin (toNumber_fin q) (by rw [jdiv_fin htr (toNumber_fin 100) (by norm_num)]; exact toNumber_fin _)
  have hbuyUSD : buyingUSDStep cfg (.fin q) = .fin (q + sh + q * (tr/100)) :=
    jadd_fin (by rw [jadd_fin (toNumber_fin q) hsh]; exact toNumber_fin _) (by rw [htax]; exact toNumber_fin _)
  have hbuyINR : buyingINRStep cfg (.fin q) = .fin ((q + sh + q * (tr/100)) * sr) :=
    jmul_fin (by rw [hbuyUSD]; exact toNumber_fin _) hsr
  have hpc : profitComponentStep cfg (.fin q) = .fin (0 + (q + sh + q * (tr/100)) * sr) := by
    unfold profitComponentStep
    rw [hprof, hbuyINR]
    rfl
  have hpay : payoutStep cfg (.fin q) =
      .fin ((0 + (q + sh + q * (tr/100)) * sr) / pr) :=
    jdiv_fin (by rw [hpc]; exact toNumber_fin _) hpr (ne_of_gt hpr0)
  have hwff : withFixedFeeStep cfg (.fin q) =
      .fin ((0 + (q + sh + q * (tr/100)) * sr) / pr + ff / pr) :=
    jadd_fin (by rw [hpay]; exact toNumber_fin _) (by rw [jdiv_fin hff hpr (ne_of_gt hpr0)]; exact toNumber_fin _)
  have hfp : finalPriceStep cfg (.fin q) =
      .fin (((0 + (q + sh + q * (tr/100)) * sr) / pr + ff / pr) / fm) :=
    jdiv_fin (by rw [hwff]; exact toNumber_fin _) (by rw [hfm]; exact toNumber_fin _) (ne_of_gt hfm0)
  have hB0 : 0 < (q + sh + q * (tr/100)) * sr := by
    have h1 : 0 ≤ q * (tr/100) := by positivity
    have h2 : 0 < q + sh + q * (tr/100) := by linarith
    exact mul_pos h2 hsr0
  have hfp0 : 0 < ((0 + (q + sh + q * (tr/100)) * sr) / pr + ff / pr) / fm := by
    have h1 : 0 < (0 + (q + sh + q * (tr/100)) * sr) / pr :=
      div_pos (by linarith) hpr0
    have h2 : (0:ℚ) ≤ ff / pr := div_nonneg hff0 hpr0.le
    exact div_pos (by linarith) hfm0
  have hguard : (!truthy (.fin q) || jsIsNaN (.fin q) || jleB (.fin q) (.fin 0)) = false := by
    simp [truthy, jsIsNaN, jleB, numLe, hq.ne', not_le.mpr hq]
  have hfmle : jleB (feeMultiplierStep cfg) (.fin 0) = false := by
    rw [hfm]
    simp only [jleB, toNumber_fin, numLe, decide_eq_false_iff_not, not_le]
    exact hfm0
  have hfin : jsIsFinite (finalPriceStep cfg (.fin q)) = true := by rw [hfp]; rfl
  have hfple : jleB (finalPriceStep cfg (.fin q)) (.fin 0) = false := by
    rw [hfp]
    simp only [jleB, toNumber_fin, numLe, decide_eq_false_iff_not, not_le]
    exact hfp0
  have hok : calculateStartPrice cfg (.fin q) = .ok (mkResult cfg (.fin q)) := by
    unfold calculateStartPrice
    rw [hv]
    simp [hguard, hfmle, hfin, hfple]
  have hnn : priceOkNotNaN (calculateStartPrice cfg (.fin q)) = true := by
    rw [hok]
    show (!jsIsNaN (round2 (finalPriceStep cfg (.fin q)))) = true
    rw [hfp, round2_fin]
    rfl
  have hprof' : getApplicableProfit (.fin q) (withZeroProfit cfg) = .fin 0 := by
    have hnm' : ∀ t ∈ tiersList (withZeroProfit cfg), tierMatchesB (.fin q) t = false := hnm
    rw [getApplicableProfit_fallback hnm']
    rfl
  have hfinEq : finalPriceStep cfg (.fin q) = finalPriceStep (withZeroProfit cfg) (.fin q) := by
    unfold finalPriceStep withFixedFeeStep payoutStep profitComponentStep
    rw [hprof, hprof']
    rfl
  exact ⟨hok, hnn, hpc, hfinEq⟩

/-- C10 witness: the amended theorem applied to a single-tier
`[10, ∞)` configuration with `desiredProfit = null` and cost 5 (below
every tier). -/
theorem claim_C10_witness :
    calculateStartPrice cfgC10null (.fin 5) = .ok (mkResult cfgC10null (.fin 5)) ∧
    priceOkNotNaN (calculateStartPrice cfgC10null (.fin 5)) = true ∧
    profitComponentStep cfgC10null (.fin 5) = .fin (0 + (5 + 0 + 5 * (10/100)) * 83) ∧
    finalPriceStep cfgC10null (.fin 5) = finalPriceStep (withZeroProfit cfgC10null) (.fin 5) :=
  claim_C10_amended cfgC10null [] 5 83 80 0 0 10 (831/1000)
    (by with_unfolding_all rfl) rfl (by with_unfolding_all decide) rfl (by norm_num)
    (by with_unfolding_all decide) rfl (by norm_num) rfl (by norm_num) rfl (by norm_num)
    rfl (by norm_num) rfl (by norm_num) (by with_unfolding_all rfl) (by norm_num)

end GrowPricing
